import Mathlib

/-!
Verification development for the scrape → filter → download → caption →
aggregate pipeline of the AI-image-captioning repository.  The Python
sources embedded here are src/scraper/web_scraper.py,
src/scraper/image_downloader.py, src/captioning/caption_generator.py and
src/pipeline/image_captioner.py.  External collaborators (the HTTP
transport, BeautifulSoup parsing, PIL decoding, the BLIP captioning
model) enter as explicit environment data; the standard-library function
urllib.parse.urljoin is modelled below.
-/

/-- Model of the Python str.startswith method for characters of a string. -/
def pyStartswith (s pre : String) : Bool :=
  pre.toList.isPrefixOf s.toList

/-- Model of the Python str.endswith method. -/
def pyEndswith (s suf : String) : Bool :=
  suf.toList.isSuffixOf s.toList

/-- Model of the Python substring membership test (the in operator),
scanning for the pattern at every suffix. -/
def pyContainsAux (pat : List Char) : List Char → Bool
  | [] => pat.isEmpty
  | c :: rest => pat.isPrefixOf (c :: rest) || pyContainsAux pat rest

/-- Model of the Python substring membership test on strings. -/
def pyContains (s pat : String) : Bool :=
  pyContainsAux pat.toList s.toList

/-- Model of the Python str.lower method, restricted to the
character-wise lowering that the scraper relies on for URL checks. -/
def pyLower (s : String) : String :=
  ⟨s.toList.map Char.toLower⟩

/-- Model of the Python str.split() call with no separator: split on runs
of whitespace, discarding empty pieces. -/
def pySplitWsAux (cur : List Char) : List Char → List String
  | [] => if cur.isEmpty then [] else [⟨cur.reverse⟩]
  | c :: rest =>
    if c.isWhitespace then
      if cur.isEmpty then pySplitWsAux [] rest
      else (⟨cur.reverse⟩ : String) :: pySplitWsAux [] rest
    else pySplitWsAux (c :: cur) rest

/-- Model of the Python str.split() call with no separator argument. -/
def pySplitWs (s : String) : List String :=
  pySplitWsAux [] s.toList

/-- Model of the Python str.split(sep) call for a one-character
separator, which is the only form the embedded code uses. -/
def pySplitChar (sep : Char) : List Char → List (List Char)
  | [] => [[]]
  | c :: rest =>
    if c = sep then [] :: pySplitChar sep rest
    else
      match pySplitChar sep rest with
      | [] => [[c]]
      | grp :: gs => (c :: grp) :: gs

/-- Model of the Python str.split(sep) on strings, one-character separator. -/
def pySplit1 (sep : Char) (s : String) : List String :=
  (pySplitChar sep s.toList).map (fun l => (⟨l⟩ : String))

/-- Model of the Python sep.join(parts) call. -/
def pyJoin (sep : String) : List String → String
  | [] => ""
  | [x] => x
  | x :: y :: rest => x ++ sep ++ pyJoin sep (y :: rest)

/-- Truthiness of an optional Python string: None and the empty string
are falsy, every other string is truthy. -/
def pyTruthyStr : Option String → Bool
  | none => false
  | some s => s ≠ ""

/-- Model of the Python expression a or b on optional strings: yields a
when a is truthy, otherwise b. -/
def pyOrStr (a b : Option String) : Option String :=
  if pyTruthyStr a then a else b

/-! Model of urllib.parse.urljoin, the standard-library relative-URL
resolver invoked by WebScraper._extract_image_url.  Query strings,
fragments and parameters are not modelled: the scraper never inspects
them and none of the properties below exercise them. -/

/-- Scheme characters accepted by urllib.parse.urlsplit. -/
def isSchemeChar (c : Char) : Bool :=
  c.isAlpha || c.isDigit || c = '+' || c = '-' || c = '.'

/-- Modelled from the standard library: split a leading scheme off a URL
as urlsplit does, returning the lowercased scheme and the remainder, or
none when the URL carries no scheme. -/
def splitScheme (u : String) : Option (String × String) :=
  match u.toList.span (fun c => c ≠ ':') with
  | (pre, _ :: rest) =>
    match pre with
    | [] => none
    | c0 :: _ =>
      if c0.isAlpha && pre.all isSchemeChar then
        some (⟨pre.map Char.toLower⟩, ⟨rest⟩)
      else none
  | (_, []) => none

/-- Modelled from the standard library: split a leading //netloc off the
scheme-free remainder of a URL, as urlsplit does. -/
def splitNetloc (rest : String) : String × String :=
  if pyStartswith rest "//" then
    let cs := rest.toList.drop 2
    let n := cs.takeWhile (fun c => c ≠ '/' && c ≠ '?' && c ≠ '#')
    let p := cs.dropWhile (fun c => c ≠ '/' && c ≠ '?' && c ≠ '#')
    (⟨n⟩, ⟨p⟩)
  else ("", rest)

/-- The split form of a URL: scheme, network location and path. -/
structure SplitUrl where
  scheme : String
  netloc : String
  path : String
deriving Repr, DecidableEq

/-- Modelled from urllib.parse.urlsplit, without query and fragment. -/
def urlsplitM (u : String) : SplitUrl :=
  match splitScheme u with
  | some (sch, rest) =>
    let np := splitNetloc rest
    ⟨sch, np.1, np.2⟩
  | none =>
    let np := splitNetloc u
    ⟨"", np.1, np.2⟩

/-- Modelled from urllib.parse.urlunsplit, without query and fragment. -/
def urlunsplitM (s : SplitUrl) : String :=
  (if s.scheme ≠ "" then s.scheme ++ ":" else "") ++
    (if s.netloc ≠ "" then "//" ++ s.netloc else "") ++ s.path

/-- Schemes for which urllib resolves relative references. -/
def usesRelative : List String :=
  ["", "ftp", "http", "gopher", "nntp", "imap", "wais", "file", "https",
   "shttp", "mms", "prospero", "rtsp", "rtspu", "sftp", "svn", "svn+ssh",
   "ws", "wss"]

/-- Schemes for which urllib recognises a network location. -/
def usesNetloc : List String :=
  ["", "ftp", "http", "gopher", "nntp", "telnet", "imap", "wais", "file",
   "mms", "https", "shttp", "snews", "prospero", "rtsp", "rtspu", "rsync",
   "svn", "svn+ssh", "sftp", "nfs", "git", "git+ssh", "ws", "wss",
   "itms-services"]

/-- Modelled from urljoin: keep the first and last path segment, dropping
empty segments in between, as the slice assignment in urljoin does. -/
def middleAux (y : String) : List String → List String
  | [] => [y]
  | z :: zs => if y = "" then middleAux z zs else y :: middleAux z zs

/-- Modelled from urljoin: the segments[1:-1] = filter(None, ...) step. -/
def filterMiddle : List String → List String
  | [] => []
  | [x] => [x]
  | x :: y :: xs => x :: middleAux y xs

/-- Modelled from urljoin: fold the segment list, popping on .. and
skipping the . segment. -/
def resolveSegs (acc : List String) : List String → List String
  | [] => acc
  | seg :: rest =>
    if seg = ".." then resolveSegs acc.dropLast rest
    else if seg = "." then resolveSegs acc rest
    else resolveSegs (acc ++ [seg]) rest

/-- Modelled from urljoin: merge a base path with a reference path. -/
def urljoinPath (bpath path : String) : String :=
  let baseParts := pySplit1 '/' bpath
  let baseParts :=
    if baseParts.getLast? = some "" then baseParts else baseParts.dropLast
  let segments :=
    if pyStartswith path "/" then pySplit1 '/' path
    else filterMiddle (baseParts ++ pySplit1 '/' path)
  let resolved := resolveSegs [] segments
  let resolved :=
    if segments.getLast? = some "." ∨ segments.getLast? = some ".." then
      resolved ++ [""]
    else resolved
  let joined := pyJoin "/" resolved
  if joined = "" then "/" else joined

/-- Modelled from urllib.parse.urljoin (query and fragment omitted). -/
def urljoin (base url : String) : String :=
  if base = "" then url
  else if url = "" then base
  else
    let b := urlsplitM base
    let su :=
      match splitScheme url with
      | some (s, r) => (s, r)
      | none => (b.scheme, url)
    let uscheme := su.1
    if uscheme ≠ b.scheme ∨ ¬ usesRelative.contains uscheme then url
    else
      let np := splitNetloc su.2
      if usesNetloc.contains uscheme ∧ np.1 ≠ "" then
        urlunsplitM ⟨uscheme, np.1, np.2⟩
      else if np.2 = "" then
        urlunsplitM ⟨uscheme, b.netloc, b.path⟩
      else
        urlunsplitM ⟨uscheme, b.netloc, urljoinPath b.path np.2⟩

/-! Embedding of src/scraper/web_scraper.py.  BeautifulSoup parsing is an
external collaborator: an already-parsed img element is a record of the
attributes and surrounding structure the scraper inspects, and a fetched
page is the list of its img elements plus the select-one capability and
title tag the scraper queries. -/

/-- Sibling element data inspected by WebScraper._extract_caption: the
tag name, the class attribute list and the stripped text. -/
structure Sibling where
  name : String
  classes : List String
  text : String
deriving Repr, DecidableEq

/-- An img element as seen by the scraper: the attributes read by
_extract_image_url and scrape_images, and the surrounding structure read
by _extract_caption.  Absent attributes are none, mirroring the None
returned by BeautifulSoup for a missing attribute. -/
structure ImgElement where
  src : Option String := none
  dataSrc : Option String := none
  srcset : Option String := none
  alt : Option String := none
  title : Option String := none
  widthAttr : Option String := none
  heightAttr : Option String := none
  parentName : Option String := none
  parentFigcaption : Option String := none
  nextSibling : Option Sibling := none
deriving Repr, DecidableEq

/-- A fetched and parsed page: all img elements in document order, the
select-one outcome for each CSS selector, and the stripped text of the
title tag when one exists. -/
structure Page where
  allImgs : List ImgElement
  selectOne : String → Option (List ImgElement)
  titleTag : Option String

/-- Failure classes that WebScraper.scrape_images surfaces to its caller:
a requests.RequestException from the page fetch, or an IndexError raised
while indexing into an empty srcset split. -/
inductive ScrapeError where
  | requestError
  | indexError
deriving Repr, DecidableEq

/-- Embedding of WebScraper._extract_image_url.  The src attribute is
preferred, then data-src (with Python or-truthiness, so an empty string
falls through), then the first URL of srcset; indexing a whitespace-split
empty srcset raises IndexError.  A falsy result yields none; otherwise
protocol-relative URLs get the https scheme, URLs starting with a slash
or not starting with the characters http are resolved with urljoin, and
anything starting with http passes through unchanged. -/
def extract_image_url (img : ImgElement) (base_url : String) :
    Except ScrapeError (Option String) := do
  let step1 := pyOrStr img.src img.dataSrc
  let img_url ←
    if ¬ pyTruthyStr step1 ∧ img.srcset.isSome then
      match pySplitWs (img.srcset.getD "") with
      | [] => Except.error ScrapeError.indexError
      | w :: _ => Except.ok (some ((pySplit1 ',' w).headD ""))
    else Except.ok step1
  if ¬ pyTruthyStr img_url then
    return none
  else
    let u := img_url.getD ""
    let u :=
      if pyStartswith u "//" then "https:" ++ u
      else if pyStartswith u "/" then urljoin base_url u
      else if ¬ pyStartswith u "http" then urljoin base_url u
      else u
    return some u

/-- Embedding of WebScraper._is_svg: the lowercased URL ends with .svg or
contains .svg anywhere. -/
def is_svg (url : String) : Bool :=
  pyEndswith (pyLower url) ".svg" || pyContains (pyLower url) ".svg"

/-- An image descriptor emitted by WebScraper.scrape_images: the resolved
URL, the alt, title, width and height attributes (empty string when
absent) and the 1-based index stamped over all img elements. -/
structure ImageData where
  url : String
  alt : String
  title : String
  width : String
  height : String
  index : Nat
deriving Repr, DecidableEq

/-- Embedding of the per-element loop of WebScraper.scrape_images:
enumerate img elements from idx, extract and resolve each URL, skip
falsy results, SVG URLs and data URIs, and emit a descriptor for the
rest. -/
def scrapeImagesAux (base_url : String) :
    List ImgElement → Nat → Except ScrapeError (List ImageData)
  | [], _ => Except.ok []
  | img :: rest, idx => do
    let u? ← extract_image_url img base_url
    let tail ← scrapeImagesAux base_url rest (idx + 1)
    if ¬ pyTruthyStr u? then
      return tail
    else
      let u := u?.getD ""
      if is_svg u then
        return tail
      else if pyStartswith u "data:" then
        return tail
      else
        return { url := u, alt := img.alt.getD "", title := img.title.getD "",
                 width := img.widthAttr.getD "", height := img.heightAttr.getD "",
                 index := idx } :: tail

/-- Embedding of WebScraper.scrape_images applied to an already fetched
and parsed element list, with enumeration starting at 1. -/
def scrapeImagesFrom (imgs : List ImgElement) (base_url : String) :
    Except ScrapeError (List ImageData) :=
  scrapeImagesAux base_url imgs 1

/-- Embedding of WebScraper.scrape_images including the page fetch: a
transport failure is a RequestException surfaced to the caller, and the
min_width and min_height parameters are accepted exactly as in the
source. -/
def scrape_images (page : Option Page) (url : String)
    (min_width min_height : Nat) : Except ScrapeError (List ImageData) :=
  match page with
  | none => Except.error ScrapeError.requestError
  | some p =>
    let _ := min_width
    let _ := min_height
    scrapeImagesFrom p.allImgs url

/-- Embedding of WebScraper._extract_caption: a figure parent with a
figcaption child wins, otherwise a following p, div or span sibling
carrying the caption class, otherwise the empty string. -/
def extract_caption (img : ImgElement) : String :=
  if img.parentName = some "figure" ∧ img.parentFigcaption.isSome then
    img.parentFigcaption.getD ""
  else
    match img.nextSibling with
    | some sib =>
      if (sib.name = "p" ∨ sib.name = "div" ∨ sib.name = "span") ∧
          sib.classes.contains "caption" then
        sib.text
      else ""
    | none => ""

/-- An image descriptor emitted by WebScraper.scrape_article_images: the
resolved URL, alt and title attributes, the nearby caption and the
1-based index stamped over all img elements of the content region. -/
structure ArticleImageData where
  url : String
  alt : String
  title : String
  caption : String
  index : Nat
deriving Repr, DecidableEq

/-- Embedding of the per-element loop of scrape_article_images. -/
def articleImagesAux (base_url : String) :
    List ImgElement → Nat → Except ScrapeError (List ArticleImageData)
  | [], _ => Except.ok []
  | img :: rest, idx => do
    let u? ← extract_image_url img base_url
    let tail ← articleImagesAux base_url rest (idx + 1)
    if ¬ pyTruthyStr u? then
      return tail
    else
      let u := u?.getD ""
      if is_svg u then
        return tail
      else if pyStartswith u "data:" then
        return tail
      else
        return { url := u, alt := img.alt.getD "", title := img.title.getD "",
                 caption := extract_caption img, index := idx } :: tail

/-- Embedding of scrape_article_images applied to a content region. -/
def articleImagesFrom (imgs : List ImgElement) (base_url : String) :
    Except ScrapeError (List ArticleImageData) :=
  articleImagesAux base_url imgs 1

/-- The content selectors scrape_article_images tries in priority order
when the caller passes none. -/
def defaultSelectors : List String :=
  ["article", ".article-content", ".post-content", ".entry-content",
   "#content", "main"]

/-- First selector match, in order, as the selection loop of
scrape_article_images computes it. -/
def firstMatch (selectOne : String → Option (List ImgElement)) :
    List String → Option (List ImgElement)
  | [] => none
  | s :: rest =>
    match selectOne s with
    | some c => some c
    | none => firstMatch selectOne rest

/-- Embedding of WebScraper.scrape_article_images: fetch the page, try
the content selectors in order, fall back to the whole page when none
matches, then run the article extraction loop over the chosen region. -/
def scrape_article_images (page : Option Page) (url : String)
    (content_selectors : Option (List String)) :
    Except ScrapeError (List ArticleImageData) :=
  let selectors := content_selectors.getD defaultSelectors
  match page with
  | none => Except.error ScrapeError.requestError
  | some p =>
    let content := (firstMatch p.selectOne selectors).getD p.allImgs
    articleImagesFrom content url

/-- Embedding of WebScraper.get_page_title: any exception (including a
transport failure) yields the empty string, a missing title tag yields
the empty string, otherwise the stripped title text. -/
def get_page_title (page : Option Page) : String :=
  match page with
  | none => ""
  | some p =>
    match p.titleTag with
    | none => ""
    | some t => t

/-! Embedding of src/scraper/image_downloader.py.  The HTTP transport and
PIL decoding are external collaborators: the outcome of the single GET
issued for an image URL is either a transport error or a response with a
status code and a payload, and the payload is represented by its decode
result (none when PIL cannot identify the bytes). -/

/-- A decoded raster image as the downloader sees it: pixel width, pixel
height, and the PIL color mode string. -/
structure PILImage where
  width : Nat
  height : Nat
  mode : String
deriving Repr, DecidableEq

/-- Outcome of the GET issued by ImageDownloader.download_image. -/
inductive ImgFetch where
  | transportError
  | response (status : Nat) (content : Option PILImage)
deriving Repr, DecidableEq

/-- Embedding of ImageDownloader.download_image.  Every exception class
is caught inside the method, so the embedding is a total function into
Option: none on a transport error, on a 4xx or 5xx status (the
raise_for_status call), on an undecodable payload, and on a decoded
image whose pixel area width * height is below min_size; otherwise the
image is returned with its mode converted to RGB when needed. -/
def download_image (fetch : ImgFetch) (min_size : Nat) : Option PILImage :=
  match fetch with
  | ImgFetch.transportError => none
  | ImgFetch.response status content =>
    if 400 ≤ status ∧ status < 600 then none
    else
      match content with
      | none => none
      | some image =>
        if image.width * image.height < min_size then none
        else if image.mode = "RGB" then some image
        else some { image with mode := "RGB" }

/-! Embedding of src/captioning/caption_generator.py.  The BLIP model is
the opaque captioning oracle: a function from an image path and an
optional prompt to a caption or a raised error message. -/

/-- A record returned by CaptionGenerator.caption_single or accumulated
by caption_batch; the success shape populates image_path, prompt and
caption, the failure shape populates image_path, a none caption and the
error text. -/
structure BatchItem where
  image_path : String
  prompt : Option String := none
  caption : Option String := none
  error : Option String := none
deriving Repr, DecidableEq

/-- Embedding of CaptionGenerator.caption_single: the prompt argument
overrides the default prompt under Python or-truthiness, the oracle is
consulted once, and an oracle exception propagates to the caller. -/
def caption_single (oracle : String → Option String → Except String String)
    (default_prompt : Option String) (image_path : String)
    (prompt : Option String) : Except String BatchItem :=
  let used_prompt := if pyTruthyStr prompt then prompt else default_prompt
  match oracle image_path used_prompt with
  | Except.error e => Except.error e
  | Except.ok c =>
    Except.ok { image_path := image_path, prompt := used_prompt,
                caption := some c, error := none }

/-- Exception classes for the embedding of caption_batch. -/
inductive PyError where
  | unboundLocal (name : String)
deriving Repr, DecidableEq

/-- Embedding of CaptionGenerator.caption_batch.  The loop header in the
source reads: for idx, image_path in enumerate(image_path, start=1).  It
iterates over image_path, the loop target itself, and because that name
is assigned by the loop it is a local variable that is still unbound
when enumerate evaluates its argument; the parameter holding the input
list is named image_paths.  Every call therefore raises UnboundLocalError
before the first iteration, for every input, so the embedding is the
constant error. -/
def caption_batch (oracle : String → Option String → Except String String)
    (default_prompt : Option String) (image_paths : List String)
    (prompt : Option String) : Except PyError (List BatchItem) :=
  let _ := oracle
  let _ := default_prompt
  let _ := image_paths
  let _ := prompt
  Except.error (PyError.unboundLocal "image_path")

/-! Embedding of src/pipeline/image_captioner.py.  The environment packs
the outcomes of the external calls one pipeline invocation can make: the
dedicated title fetch, the page fetch used by extraction, the per-URL
image fetch, and the captioning oracle on decoded images. -/

/-- Environment of one pipeline invocation. -/
structure Env where
  titleFetch : Option Page
  pageFetch : Option Page
  imageFetch : String → ImgFetch
  oracle : PILImage → Option String → Except String String

/-- A success record of ImageCaptionPipeline.process_url. -/
structure CaptionResult where
  image_url : String
  caption : String
  alt : String
  title : String
  width : Nat
  height : Nat
  index : Nat
deriving Repr, DecidableEq

/-- A failure record of the pipeline loops. -/
structure ErrorRecord where
  index : Nat
  url : String
  error : String
deriving Repr, DecidableEq

/-- The summary returned by ImageCaptionPipeline.process_url. -/
structure Summary where
  url : String
  title : String
  total_images_found : Nat
  images_processed : Nat
  images_failed : Nat
  results : List CaptionResult
  errors : List ErrorRecord
deriving Repr, DecidableEq

/-- Embedding of the cap step of process_url: the Python condition
if max_images truncates only for a truthy value, so none and zero leave
the list unchanged. -/
def applyCap (max_images : Option Nat) (l : List ImageData) : List ImageData :=
  match max_images with
  | none => l
  | some m => if m = 0 then l else l.take m

/-- Embedding of the per-item loop of process_url: enumerate the capped
descriptors from idx, download each URL with the pipeline minimum size,
record a failure with the merged reason string when the downloader
returns None, otherwise caption the image, record the exception text on
an oracle failure, and otherwise build the success record from the
descriptor and decoded image. -/
def processLoop (env : Env) (prompt : Option String) (min_image_size : Nat) :
    List ImageData → Nat → List CaptionResult × List ErrorRecord
  | [], _ => ([], [])
  | d :: rest, idx =>
    match download_image (env.imageFetch d.url) min_image_size with
    | none =>
      ((processLoop env prompt min_image_size rest (idx + 1)).1,
        { index := idx, url := d.url,
          error := "Download failed or image too small" } ::
          (processLoop env prompt min_image_size rest (idx + 1)).2)
    | some image =>
      match env.oracle image prompt with
      | Except.error e =>
        ((processLoop env prompt min_image_size rest (idx + 1)).1,
          { index := idx, url := d.url, error := e } ::
            (processLoop env prompt min_image_size rest (idx + 1)).2)
      | Except.ok caption =>
        ({ image_url := d.url, caption := caption, alt := d.alt,
           title := d.title, width := image.width, height := image.height,
           index := idx } ::
            (processLoop env prompt min_image_size rest (idx + 1)).1,
          (processLoop env prompt min_image_size rest (idx + 1)).2)

/-- Embedding of ImageCaptionPipeline.process_url: title fetch (never
fatal), whole-page scrape (fatal on failure), cap, per-item loop, and
summary assembly with counts taken from the accumulated sequences. -/
def process_url (env : Env) (url : String) (prompt : Option String)
    (max_images : Option Nat) (min_image_size : Nat) :
    Except ScrapeError Summary :=
  let page_title := get_page_title env.titleFetch
  match scrape_images env.pageFetch url 200 200 with
  | Except.error e => Except.error e
  | Except.ok images0 =>
    let images := applyCap max_images images0
    let pair := processLoop env prompt min_image_size images 1
    Except.ok { url := url, title := page_title,
                total_images_found := images.length,
                images_processed := pair.1.length,
                images_failed := pair.2.length,
                results := pair.1, errors := pair.2 }

/-- A success record of ImageCaptionPipeline.process_article: it carries
the descriptor caption as original_caption and has no title field. -/
structure ArticleCaptionResult where
  image_url : String
  caption : String
  original_caption : String
  alt : String
  width : Nat
  height : Nat
  index : Nat
deriving Repr, DecidableEq

/-- The summary returned by ImageCaptionPipeline.process_article. -/
structure ArticleSummary where
  url : String
  title : String
  total_images_found : Nat
  images_processed : Nat
  images_failed : Nat
  results : List ArticleCaptionResult
  errors : List ErrorRecord
deriving Repr, DecidableEq

/-- Embedding of the per-item loop of process_article: the downloader is
invoked without a min_size argument, so its default 200 applies, and a
download failure is recorded with the reason string Download failed. -/
def articleLoop (env : Env) (prompt : Option String) :
    List ArticleImageData → Nat → List ArticleCaptionResult × List ErrorRecord
  | [], _ => ([], [])
  | d :: rest, idx =>
    match download_image (env.imageFetch d.url) 200 with
    | none =>
      ((articleLoop env prompt rest (idx + 1)).1,
        { index := idx, url := d.url, error := "Download failed" } ::
          (articleLoop env prompt rest (idx + 1)).2)
    | some image =>
      match env.oracle image prompt with
      | Except.error e =>
        ((articleLoop env prompt rest (idx + 1)).1,
          { index := idx, url := d.url, error := e } ::
            (articleLoop env prompt rest (idx + 1)).2)
      | Except.ok caption =>
        ({ image_url := d.url, caption := caption, original_caption := d.caption,
           alt := d.alt, width := image.width, height := image.height,
           index := idx } ::
            (articleLoop env prompt rest (idx + 1)).1,
          (articleLoop env prompt rest (idx + 1)).2)

/-- Embedding of ImageCaptionPipeline.process_article: title fetch,
article-scoped scrape with the default selectors, per-item loop with no
cap step, and summary assembly. -/
def process_article (env : Env) (url : String) (prompt : Option String) :
    Except ScrapeError ArticleSummary :=
  let page_title := get_page_title env.titleFetch
  match scrape_article_images env.pageFetch url none with
  | Except.error e => Except.error e
  | Except.ok images =>
    let pair := articleLoop env prompt images 1
    Except.ok { url := url, title := page_title,
                total_images_found := images.length,
                images_processed := pair.1.length,
                images_failed := pair.2.length,
                results := pair.1, errors := pair.2 }

/-- Embedding of ImageCaptionPipeline.process_image_batch: the method
delegates directly to CaptionGenerator.caption_batch. -/
def process_image_batch (oracle : String → Option String → Except String String)
    (default_prompt : Option String) (image_paths : List String)
    (prompt : Option String) : Except PyError (List BatchItem) :=
  caption_batch oracle default_prompt image_paths prompt

/-! Invariants of the per-item loop of process_url, proved by induction
on the descriptor list with a generalized enumeration start. -/

/-- Loop invariant of processLoop: the two accumulated sequences cover
the processed descriptor list exactly once, carry strictly increasing
loop indices, and each record points back at the descriptor sitting at
its loop position. -/
theorem processLoop_spec (env : Env) (prompt : Option String) (ms : Nat)
    (descs : List ImageData) : ∀ idx : Nat,
    (processLoop env prompt ms descs idx).1.length +
        (processLoop env prompt ms descs idx).2.length = descs.length
    ∧ (((processLoop env prompt ms descs idx).1.map (fun r => r.index)) ++
        ((processLoop env prompt ms descs idx).2.map (fun e => e.index))).Perm
        (List.range' idx descs.length)
    ∧ List.Sorted (· < ·)
        ((processLoop env prompt ms descs idx).1.map (fun r => r.index))
    ∧ List.Sorted (· < ·)
        ((processLoop env prompt ms descs idx).2.map (fun e => e.index))
    ∧ (∀ r ∈ (processLoop env prompt ms descs idx).1,
        idx ≤ r.index ∧
          ∃ d, descs.get? (r.index - idx) = some d ∧ r.image_url = d.url)
    ∧ (∀ e ∈ (processLoop env prompt ms descs idx).2,
        idx ≤ e.index ∧
          ∃ d, descs.get? (e.index - idx) = some d ∧ e.url = d.url) := by
  induction descs with
  | nil =>
    intro idx
    simp [processLoop, List.range']
  | cons d rest ih =>
    intro idx
    obtain ⟨ihlen, ihperm, ihsort1, ihsort2, ihres, iherr⟩ := ih (idx + 1)
    have hstep : ∀ k : Nat, idx + 1 ≤ k → k - idx = (k - (idx + 1)) + 1 := by
      intro k hk; omega
    cases hdl : download_image (env.imageFetch d.url) ms with
    | none =>
      simp only [processLoop, hdl]
      refine ⟨by simpa using by omega, ?_, ihsort1, ?_, ?_, ?_⟩
      · rw [List.length_cons, List.range'_succ]
        simpa using List.perm_middle.trans (List.Perm.cons idx ihperm)
      · rw [List.map_cons, List.sorted_cons]
        refine ⟨?_, ihsort2⟩
        intro b hb
        obtain ⟨e, he, rfl⟩ := List.mem_map.1 hb
        exact lt_of_lt_of_le (Nat.lt_succ_self idx) (iherr e he).1
      · intro r hr
        obtain ⟨h1, d2, hget, hurl⟩ := ihres r hr
        refine ⟨by omega, d2, ?_, hurl⟩
        rw [hstep r.index h1, List.get?_cons_succ]
        exact hget
      · intro e he
        rcases List.mem_cons.1 he with rfl | he2
        · exact ⟨le_refl idx, d, by simp, rfl⟩
        · obtain ⟨h1, d2, hget, hurl⟩ := iherr e he2
          refine ⟨by omega, d2, ?_, hurl⟩
          rw [hstep e.index h1, List.get?_cons_succ]
          exact hget
    | some image =>
      cases hor : env.oracle image prompt with
      | error msg =>
        simp only [processLoop, hdl, hor]
        refine ⟨by simpa using by omega, ?_, ihsort1, ?_, ?_, ?_⟩
        · rw [List.length_cons, List.range'_succ]
          simpa using List.perm_middle.trans (List.Perm.cons idx ihperm)
        · rw [List.map_cons, List.sorted_cons]
          refine ⟨?_, ihsort2⟩
          intro b hb
          obtain ⟨e, he, rfl⟩ := List.mem_map.1 hb
          exact lt_of_lt_of_le (Nat.lt_succ_self idx) (iherr e he).1
        · intro r hr
          obtain ⟨h1, d2, hget, hurl⟩ := ihres r hr
          refine ⟨by omega, d2, ?_, hurl⟩
          rw [hstep r.index h1, List.get?_cons_succ]
          exact hget
        · intro e he
          rcases List.mem_cons.1 he with rfl | he2
          · exact ⟨le_refl idx, d, by simp, rfl⟩
          · obtain ⟨h1, d2, hget, hurl⟩ := iherr e he2
            refine ⟨by omega, d2, ?_, hurl⟩
            rw [hstep e.index h1, List.get?_cons_succ]
            exact hget
      | ok caption =>
        simp only [processLoop, hdl, hor]
        refine ⟨by simpa using by omega, ?_, ?_, ihsort2, ?_, ?_⟩
        · rw [List.length_cons, List.range'_succ, List.map_cons, List.cons_append]
          exact List.Perm.cons idx ihperm
        · rw [List.map_cons, List.sorted_cons]
          refine ⟨?_, ihsort1⟩
          intro b hb
          obtain ⟨r, hr, rfl⟩ := List.mem_map.1 hb
          exact lt_of_lt_of_le (Nat.lt_succ_self idx) (ihres r hr).1
        · intro r hr
          rcases List.mem_cons.1 hr with rfl | hr2
          · exact ⟨le_refl idx, d, by simp, rfl⟩
          · obtain ⟨h1, d2, hget, hurl⟩ := ihres r hr2
            refine ⟨by omega, d2, ?_, hurl⟩
            rw [hstep r.index h1, List.get?_cons_succ]
            exact hget
        · intro e he
          obtain ⟨h1, d2, hget, hurl⟩ := iherr e he
          refine ⟨by omega, d2, ?_, hurl⟩
          rw [hstep e.index h1, List.get?_cons_succ]
          exact hget

/-- C2: a completed run satisfies images_processed + images_failed =
total_images_found with total_images_found the size of the capped
descriptor list; results and errors carry strictly ascending indices;
and the indices across both sequences are exactly 1..n for the capped
list of length n, each record naming the URL of the descriptor at its
index, so the two sequences partition the capped descriptor set with no
duplicates or omissions. -/
theorem c2_summary_partition (env : Env) (url : String)
    (prompt : Option String) (mx : Option Nat) (ms : Nat) (s : Summary)
    (images0 : List ImageData)
    (hscrape : scrape_images env.pageFetch url 200 200 = Except.ok images0)
    (h : process_url env url prompt mx ms = Except.ok s) :
    s.images_processed + s.images_failed = s.total_images_found
    ∧ s.total_images_found = (applyCap mx images0).length
    ∧ List.Sorted (· < ·) (s.results.map (fun r => r.index))
    ∧ List.Sorted (· < ·) (s.errors.map (fun e => e.index))
    ∧ ((s.results.map (fun r => r.index)) ++
        (s.errors.map (fun e => e.index))).Perm
        (List.range' 1 (applyCap mx images0).length)
    ∧ (∀ r ∈ s.results, ∃ d, (applyCap mx images0).get? (r.index - 1) = some d
        ∧ r.image_url = d.url)
    ∧ (∀ e ∈ s.errors, ∃ d, (applyCap mx images0).get? (e.index - 1) = some d
        ∧ e.url = d.url) := by
  have hspec := processLoop_spec env prompt ms (applyCap mx images0) 1
  rw [process_url, hscrape] at h
  cases h
  obtain ⟨h1, h2, h3, h4, h5, h6⟩ := hspec
  refine ⟨h1, rfl, h3, h4, h2, ?_, ?_⟩
  · intro r hr
    exact (h5 r hr).2
  · intro e he
    exact (h6 e he).2

/-- Page used by the witness run for C2. -/
def pageC2 : Page :=
  { allImgs := [{ src := some "http://x/1.jpg" }, { src := some "http://x/2.jpg" }],
    selectOne := fun _ => none, titleTag := some "T2" }

/-- Environment of the witness run for C2: the first image downloads and
captions, the second hits a transport error. -/
def envC2 : Env :=
  { titleFetch := some pageC2, pageFetch := some pageC2,
    imageFetch := fun u =>
      if u = "http://x/1.jpg" then ImgFetch.response 200 (some ⟨300, 200, "RGB"⟩)
      else ImgFetch.transportError,
    oracle := fun _ _ => Except.ok "two dogs" }

/-- Descriptor list extracted in the witness run for C2. -/
def imagesC2 : List ImageData :=
  [{ url := "http://x/1.jpg", alt := "", title := "", width := "",
     height := "", index := 1 },
   { url := "http://x/2.jpg", alt := "", title := "", width := "",
     height := "", index := 2 }]

/-- Summary returned by the witness run for C2. -/
def sC2 : Summary :=
  { url := "http://e.com/", title := "T2", total_images_found := 2,
    images_processed := 1, images_failed := 1,
    results := [{ image_url := "http://x/1.jpg", caption := "two dogs",
                  alt := "", title := "", width := 300, height := 200,
                  index := 1 }],
    errors := [{ index := 2, url := "http://x/2.jpg",
                 error := "Download failed or image too small" }] }

/-- Witness for C2: the partition invariant instantiated on a concrete
two-image run with one success and one failure. -/
theorem c2_summary_partition_witness :
    sC2.images_processed + sC2.images_failed = sC2.total_images_found
    ∧ sC2.total_images_found = (applyCap none imagesC2).length
    ∧ List.Sorted (· < ·) (sC2.results.map (fun r => r.index))
    ∧ List.Sorted (· < ·) (sC2.errors.map (fun e => e.index))
    ∧ ((sC2.results.map (fun r => r.index)) ++
        (sC2.errors.map (fun e => e.index))).Perm
        (List.range' 1 (applyCap none imagesC2).length)
    ∧ (∀ r ∈ sC2.results, ∃ d, (applyCap none imagesC2).get? (r.index - 1) = some d
        ∧ r.image_url = d.url)
    ∧ (∀ e ∈ sC2.errors, ∃ d, (applyCap none imagesC2).get? (e.index - 1) = some d
        ∧ e.url = d.url) :=
  c2_summary_partition envC2 "http://e.com/" none none 200 sC2 imagesC2
    (by rfl) (by rfl)

/-- Page used by the runs for C1: an SVG element precedes the one
surviving image, so the survivor is discovered at position 2. -/
def pageC1 : Page :=
  { allImgs := [{ src := some "a.svg" }, { src := some "http://x/b.jpg" }],
    selectOne := fun _ => none, titleTag := none }

/-- Environment of the runs for C1: downloads and captions succeed. -/
def envC1 : Env :=
  { titleFetch := some pageC1, pageFetch := some pageC1,
    imageFetch := fun _ => ImgFetch.response 200 (some ⟨100, 100, "RGB"⟩),
    oracle := fun _ _ => Except.ok "a cat" }

/-- Summary returned by the run for C1. -/
def sC1 : Summary :=
  { url := "https://example.com/page", title := "",
    total_images_found := 1, images_processed := 1, images_failed := 0,
    results := [{ image_url := "http://x/b.jpg", caption := "a cat",
                  alt := "", title := "", width := 100, height := 100,
                  index := 1 }],
    errors := [] }

/-- C1 counterexample: on a page whose first img element is an SVG, the
extractor stamps sequence_index 2 on the surviving descriptor, yet the
pipeline stores index 1 in the CaptionRecord for that same image — the
discovery-time index is not threaded through, and the filtered element
renumbers the survivor. -/
theorem c1_counterexample :
    scrapeImagesFrom pageC1.allImgs "https://example.com/page" =
      Except.ok [{ url := "http://x/b.jpg", alt := "", title := "",
                   width := "", height := "", index := 2 }]
    ∧ process_url envC1 "https://example.com/page" none none 200 =
      Except.ok sC1
    ∧ sC1.results.map (fun r => r.index) = [1]
    ∧ (1 : Nat) ≠ 2 :=
  ⟨by rfl, by rfl, by rfl, by decide⟩

/-- C1 amended: the pipeline loop never reads the stamped sequence_index
(reindexing every descriptor leaves the output unchanged), and the index
stored in each record is instead the 1-based position of the descriptor
inside the capped post-filter list, so items filtered at extraction time
renumber later survivors while failures inside the loop do not. -/
theorem c1_amended_position_index :
    (∀ (env : Env) (prompt : Option String) (ms : Nat)
        (descs : List ImageData) (idx : Nat) (f : ImageData → Nat),
      processLoop env prompt ms
          (descs.map (fun d => { d with index := f d })) idx =
        processLoop env prompt ms descs idx)
    ∧ ∀ (env : Env) (url : String) (prompt : Option String)
        (mx : Option Nat) (ms : Nat) (s : Summary)
        (images0 : List ImageData),
        scrape_images env.pageFetch url 200 200 = Except.ok images0 →
        process_url env url prompt mx ms = Except.ok s →
        (∀ r ∈ s.results,
          ∃ d, (applyCap mx images0).get? (r.index - 1) = some d ∧
            r.image_url = d.url)
        ∧ (∀ e ∈ s.errors,
          ∃ d, (applyCap mx images0).get? (e.index - 1) = some d ∧
            e.url = d.url) := by
  constructor
  · intro env prompt ms descs idx f
    induction descs generalizing idx with
    | nil => rfl
    | cons d rest ih =>
      simp only [List.map_cons, processLoop, ih]
  · intro env url prompt mx ms s images0 hscrape h
    have hspec := processLoop_spec env prompt ms (applyCap mx images0) 1
    rw [process_url, hscrape] at h
    cases h
    obtain ⟨-, -, -, -, h5, h6⟩ := hspec
    refine ⟨?_, ?_⟩
    · intro r hr
      exact (h5 r hr).2
    · intro e he
      exact (h6 e he).2

/-- Witness for the amended C1: reindexing the concrete capped list is
invisible to the loop, and in the concrete C2 run every record points at
the descriptor sitting at its own loop position. -/
theorem c1_amended_position_index_witness :
    processLoop envC2 none 200
        (imagesC2.map (fun d => { d with index := 99 })) 1 =
      processLoop envC2 none 200 imagesC2 1
    ∧ (∀ r ∈ sC2.results,
        ∃ d, (applyCap none imagesC2).get? (r.index - 1) = some d ∧
          r.image_url = d.url)
    ∧ (∀ e ∈ sC2.errors,
        ∃ d, (applyCap none imagesC2).get? (e.index - 1) = some d ∧
          e.url = d.url) :=
  ⟨c1_amended_position_index.1 envC2 none 200 imagesC2 1 (fun _ => 99),
    c1_amended_position_index.2 envC2 "http://e.com/" none none 200 sC2
      imagesC2 (by rfl) (by rfl)⟩

/-- C6: when max_images is set to a positive value m, the capped list is
exactly the first m entries of the extracted descriptor sequence (which
is in ascending stamped order), total_images_found is fixed as the size
of that truncated list, and the per-item loop runs over the truncated
list only. -/
theorem c6_cap_truncates (env : Env) (url : String) (prompt : Option String)
    (m ms : Nat) (images0 : List ImageData) (s : Summary)
    (h0 : 0 < m)
    (hscrape : scrape_images env.pageFetch url 200 200 = Except.ok images0)
    (h : process_url env url prompt (some m) ms = Except.ok s) :
    applyCap (some m) images0 = images0.take m
    ∧ s.total_images_found = (images0.take m).length
    ∧ (s.results, s.errors) = processLoop env prompt ms (images0.take m) 1 := by
  have hcap : applyCap (some m) images0 = images0.take m := by
    simp only [applyCap]
    rw [if_neg (by omega)]
  rw [process_url, hscrape] at h
  cases h
  rw [hcap]
  exact ⟨rfl, rfl, rfl⟩

/-- Page used by the witness run for C6: five discoverable images. -/
def pageC6 : Page :=
  { allImgs := [{ src := some "http://x/1.jpg" }, { src := some "http://x/2.jpg" },
                { src := some "http://x/3.jpg" }, { src := some "http://x/4.jpg" },
                { src := some "http://x/5.jpg" }],
    selectOne := fun _ => none, titleTag := some "T6" }

/-- Environment of the witness run for C6: every download and caption
succeeds. -/
def envC6 : Env :=
  { titleFetch := some pageC6, pageFetch := some pageC6,
    imageFetch := fun _ => ImgFetch.response 200 (some ⟨300, 300, "RGB"⟩),
    oracle := fun _ _ => Except.ok "w" }

/-- Descriptor list extracted in the witness run for C6. -/
def imagesC6 : List ImageData :=
  [{ url := "http://x/1.jpg", alt := "", title := "", width := "", height := "", index := 1 },
   { url := "http://x/2.jpg", alt := "", title := "", width := "", height := "", index := 2 },
   { url := "http://x/3.jpg", alt := "", title := "", width := "", height := "", index := 3 },
   { url := "http://x/4.jpg", alt := "", title := "", width := "", height := "", index := 4 },
   { url := "http://x/5.jpg", alt := "", title := "", width := "", height := "", index := 5 }]

/-- Summary returned by the witness run for C6. -/
def sC6 : Summary :=
  { url := "http://e.com/", title := "T6", total_images_found := 3,
    images_processed := 3, images_failed := 0,
    results := [{ image_url := "http://x/1.jpg", caption := "w", alt := "",
                  title := "", width := 300, height := 300, index := 1 },
                { image_url := "http://x/2.jpg", caption := "w", alt := "",
                  title := "", width := 300, height := 300, index := 2 },
                { image_url := "http://x/3.jpg", caption := "w", alt := "",
                  title := "", width := 300, height := 300, index := 3 }],
    errors := [] }

/-- Witness for C6, scenario E: a batch of five descriptors capped at
three yields total_images_found = 3 and processes only the first three. -/
theorem c6_cap_truncates_witness :
    (applyCap (some 3) imagesC6 = imagesC6.take 3
    ∧ sC6.total_images_found = (imagesC6.take 3).length
    ∧ (sC6.results, sC6.errors) = processLoop envC6 none 200 (imagesC6.take 3) 1)
    ∧ sC6.total_images_found = 3 :=
  ⟨c6_cap_truncates envC6 "http://e.com/" none 3 200 imagesC6 sC6
      (by decide) (by rfl) (by rfl),
    by rfl⟩

/-- C10: the min_width and min_height parameters of scrape_images never
influence the returned descriptor list — any two values give identical
output for every page and base URL, so no dimension-based filtering
happens at extraction time. -/
theorem c10_min_dims_no_influence (page : Option Page) (url : String)
    (w1 h1 w2 h2 : Nat) :
    scrape_images page url w1 h1 = scrape_images page url w2 h2 := rfl

/-- Captioning oracle stub used by the concrete conjunct of C7. -/
def oracleC7 : String → Option String → Except String String :=
  fun _ _ => Except.ok "c"

/-- C7: caption_batch never returns a result list.  Its loop iterates
enumerate(image_path) — the unbound loop target — instead of the
image_paths parameter, so every call, including the batch mode of the
pipeline on the concrete input ["a.jpg"], raises UnboundLocalError
instead of producing one record per input path. -/
theorem c7_caption_batch_unbound :
    (∀ (oracle : String → Option String → Except String String)
        (dp : Option String) (paths : List String) (prompt : Option String),
      caption_batch oracle dp paths prompt =
        Except.error (PyError.unboundLocal "image_path"))
    ∧ (∀ (oracle : String → Option String → Except String String)
        (dp : Option String) (paths : List String) (prompt : Option String),
      process_image_batch oracle dp paths prompt =
        Except.error (PyError.unboundLocal "image_path"))
    ∧ process_image_batch oracleC7 none ["a.jpg"] none =
        Except.error (PyError.unboundLocal "image_path") :=
  ⟨fun _ _ _ _ => rfl, fun _ _ _ _ => rfl, rfl⟩

/-- Image payload sitting behind the C3 counterexample run. -/
def imgC3 : PILImage := ⟨50, 50, "RGB"⟩

/-- Page used by the counterexample run for C3. -/
def pageC3 : Page :=
  { allImgs := [{ src := some "http://x/c.jpg" }],
    selectOne := fun _ => none, titleTag := some "T3" }

/-- Environment of the counterexample run for C3: the image decodes to
50 by 50 pixels and the pipeline minimum area is 40000, the too-small
class of failure. -/
def envC3 : Env :=
  { titleFetch := some pageC3, pageFetch := some pageC3,
    imageFetch := fun _ => ImgFetch.response 200 (some imgC3),
    oracle := fun _ _ => Except.ok "x" }

/-- Summary returned by the counterexample run for C3. -/
def sC3 : Summary :=
  { url := "http://e.com/", title := "T3", total_images_found := 1,
    images_processed := 0, images_failed := 1, results := [],
    errors := [{ index := 1, url := "http://x/c.jpg",
                 error := "Download failed or image too small" }] }

/-- C3 counterexample: the fetcher collapses every failure class to the
bare value none — a transport error, a 404, an undecodable payload and
an undersized image are indistinguishable at its boundary — and the
pipeline records the single merged reason string for the too-small run,
not the class-specific reason the claim requires. -/
theorem c3_counterexample :
    download_image ImgFetch.transportError 200 = none
    ∧ download_image (ImgFetch.response 404 (some ⟨500, 500, "RGB"⟩)) 200 = none
    ∧ download_image (ImgFetch.response 200 none) 200 = none
    ∧ download_image (ImgFetch.response 200 (some imgC3)) 40000 = none
    ∧ process_url envC3 "http://e.com/" none none 40000 = Except.ok sC3
    ∧ sC3.errors.map (fun e => e.error) = ["Download failed or image too small"]
    ∧ ("Download failed or image too small" : String) ≠ "too small" :=
  ⟨rfl, rfl, rfl, rfl, by rfl, rfl, by decide⟩

/-- C3 amended: the fetcher is total over its boundary (every exception
class is caught) and returns none, with no attached reason, exactly on a
transport error, a 4xx or 5xx status, an undecodable payload, or a
decoded image of pixel area below min_size — which is discarded — while
every returned image has mode RGB and area at least min_size, so
undersized images never flow downstream; the pipeline reports all three
download-stage failure classes with the one merged reason string. -/
theorem c3_amended_download_contract (f : ImgFetch) (m : Nat) :
    (download_image f m = none ↔
      f = ImgFetch.transportError
      ∨ (∃ st c, f = ImgFetch.response st c ∧ 400 ≤ st ∧ st < 600)
      ∨ (∃ st, f = ImgFetch.response st none ∧ ¬ (400 ≤ st ∧ st < 600))
      ∨ (∃ st img, f = ImgFetch.response st (some img) ∧
          ¬ (400 ≤ st ∧ st < 600) ∧ img.width * img.height < m))
    ∧ (∀ img, download_image f m = some img →
        img.mode = "RGB" ∧ m ≤ img.width * img.height) := by
  cases f with
  | transportError =>
    refine ⟨⟨fun _ => Or.inl rfl, fun _ => rfl⟩, ?_⟩
    intro img h
    exact absurd h (by simp [download_image])
  | response st c =>
    by_cases hst : 400 ≤ st ∧ st < 600
    · refine ⟨⟨fun _ => Or.inr (Or.inl ⟨st, c, rfl, hst.1, hst.2⟩), ?_⟩, ?_⟩
      · intro _
        simp [download_image, hst]
      · intro img h
        simp only [download_image] at h
        rw [if_pos hst] at h
        cases h
    · cases c with
      | none =>
        refine ⟨⟨fun _ => Or.inr (Or.inr (Or.inl ⟨st, rfl, hst⟩)), ?_⟩, ?_⟩
        · intro _
          simp [download_image, hst]
        · intro img h
          simp only [download_image] at h
          rw [if_neg hst] at h
          cases h
      | some img0 =>
        by_cases harea : img0.width * img0.height < m
        · refine ⟨⟨fun _ =>
            Or.inr (Or.inr (Or.inr ⟨st, img0, rfl, hst, harea⟩)), ?_⟩, ?_⟩
          · intro _
            simp [download_image, hst, harea]
          · intro img h
            simp only [download_image] at h
            rw [if_neg hst, if_pos harea] at h
            cases h
        · have hsome : ∃ out, download_image (ImgFetch.response st (some img0)) m
              = some out ∧ out.mode = "RGB" ∧ out.width = img0.width ∧
              out.height = img0.height := by
            by_cases hmode : img0.mode = "RGB"
            · refine ⟨img0, ?_, hmode, rfl, rfl⟩
              simp only [download_image]
              rw [if_neg hst, if_neg harea, if_pos hmode]
            · refine ⟨{ img0 with mode := "RGB" }, ?_, rfl, rfl, rfl⟩
              simp only [download_image]
              rw [if_neg hst, if_neg harea, if_neg hmode]
          obtain ⟨out, hout, hm, hw, hh⟩ := hsome
          constructor
          · rw [hout]
            constructor
            · intro h
              cases h
            · rintro (h | ⟨st2, c2, heq, h1, h2⟩ | ⟨st2, heq, h1⟩ |
                ⟨st2, img2, heq, h1, h2⟩)
              · cases h
              · injection heq with e1 e2
                subst e1
                exact absurd ⟨h1, h2⟩ hst
              · injection heq with e1 e2
                cases e2
              · injection heq with e1 e2
                injection e2 with e3
                subst e1
                subst e3
                exact absurd h2 harea
          · intro img h
            rw [hout] at h
            injection h with h
            subst h
            exact ⟨hm, by rw [hw, hh]; omega⟩

/-- Witness for the amended C3: a 50 by 50 palette image against minimum
area 200 comes back converted to RGB with area at least 200. -/
theorem c3_amended_witness :
    imgC3.mode = "RGB" ∧ 200 ≤ imgC3.width * imgC3.height :=
  (c3_amended_download_contract (ImgFetch.response 200 (some ⟨50, 50, "P"⟩))
    200).2 imgC3 (by rfl)

/-- Helper for C4: no descriptor emitted by the scrape loop has an
SVG-like URL or a URL with the data scheme prefix, by induction over the
element list. -/
theorem scrapeAux_no_svg_no_data (base : String) :
    ∀ (imgs : List ImgElement) (idx : Nat) (l : List ImageData),
    scrapeImagesAux base imgs idx = Except.ok l →
    ∀ d ∈ l, is_svg d.url = false ∧ pyStartswith d.url "data:" = false := by
  intro imgs
  induction imgs with
  | nil =>
    intro idx l h
    cases h
    intro d hd
    cases hd
  | cons img rest ih =>
    intro idx l h
    cases hex : extract_image_url img base with
    | error e =>
      rw [scrapeImagesAux] at h
      rw [hex] at h
      cases h
    | ok u? =>
      cases htail : scrapeImagesAux base rest (idx + 1) with
      | error e =>
        rw [scrapeImagesAux] at h
        rw [hex, htail] at h
        simp only [bind, Except.bind, pure, Except.pure] at h
        cases h
      | ok tl =>
        rw [scrapeImagesAux] at h
        rw [hex, htail] at h
        simp only [bind, Except.bind, pure, Except.pure] at h
        by_cases h1 : ¬ pyTruthyStr u? = true
        · rw [if_pos h1] at h
          injection h with he
          subst he
          intro d hd
          exact ih (idx + 1) tl htail d hd
        · rw [if_neg h1] at h
          by_cases h2 : is_svg (u?.getD "") = true
          · rw [if_pos h2] at h
            injection h with he
            subst he
            intro d hd
            exact ih (idx + 1) tl htail d hd
          · rw [if_neg h2] at h
            by_cases h3 : pyStartswith (u?.getD "") "data:" = true
            · rw [if_pos h3] at h
              injection h with he
              subst he
              intro d hd
              exact ih (idx + 1) tl htail d hd
            · rw [if_neg h3] at h
              injection h with he
              subst he
              intro d hd
              rcases List.mem_cons.1 hd with rfl | hd2
              · constructor
                · simpa using h2
                · simpa using h3
              · exact ih (idx + 1) tl htail d hd2

/-- Definition following the words of the specification for C4: a URL is
absolute with an http or https scheme. -/
def specUrlAbsoluteHttp (u : String) : Bool :=
  pyStartswith u "http://" || pyStartswith u "https://"

/-- C4 counterexample: an element whose source is the relative file name
httpx.jpg survives extraction unchanged, because the resolver treats any
source beginning with the characters http as already absolute; the
emitted descriptor URL is neither absolute nor http(s)-schemed. -/
theorem c4_counterexample :
    scrapeImagesFrom [{ src := some "httpx.jpg" }] "https://example.com/page" =
      Except.ok [{ url := "httpx.jpg", alt := "", title := "", width := "",
                   height := "", index := 1 }]
    ∧ specUrlAbsoluteHttp "httpx.jpg" = false :=
  ⟨by rfl, by rfl⟩

/-- C4 amended: every descriptor emitted by whole-page extraction has a
URL that is not SVG-like (lowercased form free of the .svg marker) and
does not carry the data scheme prefix; absoluteness with an http or
https scheme is not guaranteed, since any source beginning with the
characters http passes through unresolved. -/
theorem c4_amended_no_svg_no_data (imgs : List ImgElement) (base : String)
    (l : List ImageData) (h : scrapeImagesFrom imgs base = Except.ok l) :
    ∀ d ∈ l, is_svg d.url = false ∧ pyStartswith d.url "data:" = false :=
  scrapeAux_no_svg_no_data base imgs 1 l h

/-- Element list of the witness run for C4: a data URI, an SVG and one
surviving raster image. -/
def imgsC4 : List ImgElement :=
  [{ src := some "data:image/png;base64,xx" }, { src := some "pic.svg" },
   { src := some "http://x/ok.png" }]

/-- Witness for the amended C4: the one survivor of the concrete run is
neither SVG-like nor a data URI. -/
theorem c4_amended_witness :
    is_svg ("http://x/ok.png" : String) = false
    ∧ pyStartswith "http://x/ok.png" "data:" = false :=
  c4_amended_no_svg_no_data imgsC4 "https://example.com/page"
    [{ url := "http://x/ok.png", alt := "", title := "", width := "",
       height := "", index := 3 }] (by rfl)
    { url := "http://x/ok.png", alt := "", title := "", width := "",
      height := "", index := 3 } (by simp)

/-- Helper for C8: with a truthy src attribute, URL extraction reduces to
the four-way resolution conditional of _extract_image_url. -/
theorem extract_image_url_src (img : ImgElement) (base s : String)
    (hsrc : img.src = some s) (hne : s ≠ "") :
    extract_image_url img base = Except.ok (some (
      if pyStartswith s "//" then "https:" ++ s
      else if pyStartswith s "/" then urljoin base s
      else if ¬ pyStartswith s "http" then urljoin base s
      else s)) := by
  simp [extract_image_url, hsrc, pyOrStr, pyTruthyStr, hne, bind, Except.bind,
    pure, Except.pure]

/-- C8 counterexample: the source http-icon.png is document-relative, so
under the claim it would be resolved against the base URL to
https://example.com/http-icon.png, but extraction emits it unchanged —
the pass-through test is the character prefix http, not absoluteness, so
a document-relative source beginning with those characters is never
resolved. -/
theorem c8_counterexample :
    extract_image_url { src := some "http-icon.png" } "https://example.com/page" =
      Except.ok (some "http-icon.png")
    ∧ urljoin "https://example.com/page" "http-icon.png" =
      "https://example.com/http-icon.png"
    ∧ ("http-icon.png" : String) ≠ "https://example.com/http-icon.png"
    ∧ specUrlAbsoluteHttp "http-icon.png" = false :=
  ⟨by rfl, by rfl, by decide, by rfl⟩

/-- C8 amended: a protocol-relative source is completed with the https
scheme, a root-relative source is resolved against the base URL by the
urljoin model of standard relative-URL resolution, and so is a remaining
source only when it does not begin with the characters http — any source
beginning with http passes through unchanged, absolute or not — and the
scenario markup img src=/logo.png alt=Logo on base
https://example.com/page yields the single descriptor url
https://example.com/logo.png. -/
theorem c8_url_resolution (img : ImgElement) (base s : String)
    (hsrc : img.src = some s) (hne : s ≠ "") :
    (pyStartswith s "//" = true →
      extract_image_url img base = Except.ok (some ("https:" ++ s)))
    ∧ (pyStartswith s "//" = false → pyStartswith s "/" = true →
      extract_image_url img base = Except.ok (some (urljoin base s)))
    ∧ (pyStartswith s "/" = false → pyStartswith s "http" = true →
      extract_image_url img base = Except.ok (some s))
    ∧ (pyStartswith s "//" = false → pyStartswith s "/" = false →
      pyStartswith s "http" = false →
      extract_image_url img base = Except.ok (some (urljoin base s)))
    ∧ scrapeImagesFrom [{ src := some "/logo.png", alt := some "Logo" }]
        "https://example.com/page" =
      Except.ok [{ url := "https://example.com/logo.png", alt := "Logo",
                   title := "", width := "", height := "", index := 1 }] := by
  have hbase := extract_image_url_src img base s hsrc hne
  refine ⟨?_, ?_, ?_, ?_, by rfl⟩
  · intro h1
    rw [hbase]
    simp [h1]
  · intro h1 h2
    rw [hbase]
    simp [h1, h2]
  · intro h2 h3
    have h1 : pyStartswith s "//" = false := by
      cases hc : pyStartswith s "//" with
      | false => rfl
      | true =>
        exfalso
        have hp : ("//".toList).isPrefixOf s.toList = true := hc
        have hslash : pyStartswith s "/" = true := by
          simp only [pyStartswith, List.isPrefixOf_iff_prefix] at hp ⊢
          obtain ⟨t, ht⟩ := hp
          exact ⟨'/' :: t, by rw [← ht]; rfl⟩
        rw [h2] at hslash
        cases hslash
    rw [hbase]
    simp [h1, h2, h3]
  · intro h1 h2 h3
    rw [hbase]
    simp [h1, h2, h3]

/-- Witness for C8: the scenario source /logo.png is root-relative, so
extraction resolves it with urljoin, and the resolved URL is the scenario
expectation. -/
theorem c8_url_resolution_witness :
    extract_image_url { src := some "/logo.png", alt := some "Logo" }
        "https://example.com/page" =
      Except.ok (some (urljoin "https://example.com/page" "/logo.png"))
    ∧ urljoin "https://example.com/page" "/logo.png" =
      "https://example.com/logo.png" :=
  ⟨(c8_url_resolution { src := some "/logo.png", alt := some "Logo" }
      "https://example.com/page" "/logo.png" rfl (by decide)).2.1
      (by rfl) (by rfl),
    by rfl⟩

/-- Helper for C9: the per-item loop only consults the image fetch and
the oracle, so environments agreeing on those produce identical output. -/
theorem processLoop_env_congr (e1 e2 : Env)
    (hf : e1.imageFetch = e2.imageFetch) (ho : e1.oracle = e2.oracle)
    (prompt : Option String) (ms : Nat) :
    ∀ (descs : List ImageData) (idx : Nat),
    processLoop e1 prompt ms descs idx = processLoop e2 prompt ms descs idx := by
  intro descs
  induction descs with
  | nil => intro idx; rfl
  | cons d rest ih =>
    intro idx
    simp only [processLoop, hf, ho, ih]

/-- Helper for C9: when every selector misses, the selection loop of
scrape_article_images yields none. -/
theorem firstMatch_none (f : String → Option (List ImgElement)) :
    ∀ sels : List String, (∀ s ∈ sels, f s = none) →
    firstMatch f sels = none := by
  intro sels
  induction sels with
  | nil => intro _; rfl
  | cons s rest ih =>
    intro h
    rw [firstMatch, h s (List.mem_cons_self s rest), ih]
    intro t ht
    exact h t (List.mem_cons_of_mem s ht)

/-- C9: a failed title fetch substitutes the empty string and changes
nothing else about a run — the whole summary, success or fatal error, is
the title-succeeding outcome with title replaced by the empty string —
and in article scope, when no content selector matches, extraction
deterministically falls back to scanning the whole page. -/
theorem c9_degraded_nonfatal :
    (∀ (env : Env) (url : String) (prompt : Option String)
        (mx : Option Nat) (ms : Nat),
      process_url { env with titleFetch := none } url prompt mx ms =
        (process_url env url prompt mx ms).map (fun s => { s with title := "" }))
    ∧ ∀ (p : Page) (url : String) (cs : Option (List String)),
        (∀ sel ∈ cs.getD defaultSelectors, p.selectOne sel = none) →
        scrape_article_images (some p) url cs =
          articleImagesFrom p.allImgs url := by
  constructor
  · intro env url prompt mx ms
    have hl := processLoop_env_congr { env with titleFetch := none } env
      rfl rfl prompt ms
    simp only [process_url]
    cases hs : scrape_images env.pageFetch url 200 200 with
    | error e => simp [Except.map]
    | ok images0 => simp [Except.map, hl, get_page_title]
  · intro p url cs h
    have hfm : firstMatch p.selectOne (cs.getD defaultSelectors) = none :=
      firstMatch_none p.selectOne (cs.getD defaultSelectors) h
    simp only [scrape_article_images]
    rw [hfm]
    rfl

/-- Page used by the witness run for C9. -/
def pageC9 : Page :=
  { allImgs := [{ src := some "http://x/z.jpg" }],
    selectOne := fun _ => none, titleTag := some "T9" }

/-- Environment of the witness run for C9. -/
def envC9 : Env :=
  { titleFetch := some pageC9, pageFetch := some pageC9,
    imageFetch := fun _ => ImgFetch.response 200 (some ⟨400, 400, "RGB"⟩),
    oracle := fun _ _ => Except.ok "z" }

/-- Witness for C9: the concrete run with the title fetch failing equals
the run with it succeeding, title blanked, and the concrete all-miss
selector page falls back to whole-page extraction. -/
theorem c9_degraded_nonfatal_witness :
    process_url { envC9 with titleFetch := none } "http://e.com/" none none 200 =
      (process_url envC9 "http://e.com/" none none 200).map
        (fun s => { s with title := "" })
    ∧ scrape_article_images (some pageC9) "http://e.com/" none =
      articleImagesFrom pageC9.allImgs "http://e.com/" :=
  ⟨c9_degraded_nonfatal.1 envC9 "http://e.com/" none none 200,
    c9_degraded_nonfatal.2 pageC9 "http://e.com/" none (fun _ _ => rfl)⟩

/-- Helper for C5: whole-page and article extraction emit descriptor
lists agreeing on URL and alt text (and on the fatal error, if any),
since both run the same resolution and filtering over the same element
list. -/
theorem articleAux_core_eq (base : String) :
    ∀ (imgs : List ImgElement) (idx : Nat),
    (articleImagesAux base imgs idx).map (List.map (fun d => (d.url, d.alt))) =
    (scrapeImagesAux base imgs idx).map (List.map (fun d => (d.url, d.alt))) := by
  intro imgs
  induction imgs with
  | nil => intro idx; rfl
  | cons img rest ih =>
    intro idx
    cases hex : extract_image_url img base with
    | error e =>
      rw [articleImagesAux, scrapeImagesAux, hex]
      rfl
    | ok u? =>
      have IH := ih (idx + 1)
      cases ha : articleImagesAux base rest (idx + 1) with
      | error e1 =>
        cases hp : scrapeImagesAux base rest (idx + 1) with
        | error e2 =>
          rw [ha, hp] at IH
          simp only [Except.map] at IH
          injection IH with he
          subst he
          rw [articleImagesAux, scrapeImagesAux, hex, ha, hp]
          rfl
        | ok l2 =>
          rw [ha, hp] at IH
          simp only [Except.map] at IH
          cases IH
      | ok l1 =>
        cases hp : scrapeImagesAux base rest (idx + 1) with
        | error e2 =>
          rw [ha, hp] at IH
          simp only [Except.map] at IH
          cases IH
        | ok l2 =>
          rw [ha, hp] at IH
          simp only [Except.map] at IH
          injection IH with hmap
          rw [articleImagesAux, scrapeImagesAux, hex, ha, hp]
          simp only [bind, Except.bind, pure, Except.pure]
          by_cases h1 : ¬ pyTruthyStr u? = true
          · rw [if_pos h1, if_pos h1]
            simp only [Except.map]
            rw [hmap]
          · rw [if_neg h1, if_neg h1]
            by_cases h2 : is_svg (u?.getD "") = true
            · rw [if_pos h2, if_pos h2]
              simp only [Except.map]
              rw [hmap]
            · rw [if_neg h2, if_neg h2]
              by_cases h3 : pyStartswith (u?.getD "") "data:" = true
              · rw [if_pos h3, if_pos h3]
                simp only [Except.map]
                rw [hmap]
              · rw [if_neg h3, if_neg h3]
                simp only [Except.map, List.map_cons]
                rw [hmap]

/-- Helper for C5: on descriptor lists agreeing in URL and alt text, the
whole-page loop at minimum size 200 and the article loop produce
success records agreeing on every shared field, failure records agreeing
on index and URL, and failure reasons that differ only as the two
download-failure strings differ. -/
theorem loops_agree (env : Env) (prompt : Option String) :
    ∀ (adescs : List ArticleImageData) (pdescs : List ImageData) (idx : Nat),
    adescs.map (fun d => (d.url, d.alt)) = pdescs.map (fun d => (d.url, d.alt)) →
    ((articleLoop env prompt adescs idx).1.map
        (fun r => (r.image_url, r.caption, r.alt, r.width, r.height, r.index)) =
      (processLoop env prompt 200 pdescs idx).1.map
        (fun r => (r.image_url, r.caption, r.alt, r.width, r.height, r.index)))
    ∧ ((articleLoop env prompt adescs idx).2.map (fun e => (e.index, e.url)) =
      (processLoop env prompt 200 pdescs idx).2.map (fun e => (e.index, e.url)))
    ∧ List.Forall₂ (fun (ep ea : ErrorRecord) =>
        ep.error = ea.error ∨
          (ep.error = "Download failed or image too small" ∧
            ea.error = "Download failed"))
        (processLoop env prompt 200 pdescs idx).2
        (articleLoop env prompt adescs idx).2 := by
  intro adescs
  induction adescs with
  | nil =>
    intro pdescs idx h
    cases pdescs with
    | nil => exact ⟨rfl, rfl, List.Forall₂.nil⟩
    | cons p ps => simp at h
  | cons a as ih =>
    intro pdescs idx h
    cases pdescs with
    | nil => simp at h
    | cons p ps =>
      simp only [List.map_cons, List.cons.injEq, Prod.mk.injEq] at h
      obtain ⟨⟨hurl, halt⟩, htail⟩ := h
      obtain ⟨ih1, ih2, ih3⟩ := ih ps (idx + 1) htail
      rw [articleLoop, processLoop, hurl]
      cases hdl : download_image (env.imageFetch p.url) 200 with
      | none =>
        simp only [hdl, List.map_cons]
        exact ⟨ih1, by rw [ih2], List.Forall₂.cons (Or.inr ⟨rfl, rfl⟩) ih3⟩
      | some image =>
        cases hor : env.oracle image prompt with
        | error e =>
          simp only [hdl, hor, List.map_cons]
          exact ⟨ih1, by rw [ih2], List.Forall₂.cons (Or.inl rfl) ih3⟩
        | ok caption =>
          simp only [hdl, hor, List.map_cons]
          refine ⟨?_, ih2, ih3⟩
          rw [ih1, halt]

/-- C5 amended: the two modes share the state machine only up to these
divergences: article mode has no cap step, calls the downloader with its
default minimum size 200 instead of the pipeline minimum, stores the
failure reason Download failed instead of the merged whole-page string,
and its success records add original_caption while omitting title.  When
the pipeline minimum is 200, no cap is set, and the article content
region falls back to the whole page, the two summaries agree on counts
and on every shared record field, with exactly those record-shape
differences. -/
theorem c5_amended_modes_agree (env : Env) (url : String) (prompt : Option String)
    (su : Summary) (sa : ArticleSummary)
    (hu : process_url env url prompt none 200 = Except.ok su)
    (ha : process_article env url prompt = Except.ok sa)
    (hsel : ∀ p, env.pageFetch = some p → ∀ sel, p.selectOne sel = none) :
    sa.url = su.url ∧ sa.title = su.title
    ∧ sa.total_images_found = su.total_images_found
    ∧ sa.images_processed = su.images_processed
    ∧ sa.images_failed = su.images_failed
    ∧ sa.results.map (fun r => (r.image_url, r.caption, r.alt, r.width, r.height, r.index)) =
        su.results.map (fun r => (r.image_url, r.caption, r.alt, r.width, r.height, r.index))
    ∧ sa.errors.map (fun e => (e.index, e.url)) = su.errors.map (fun e => (e.index, e.url))
    ∧ List.Forall₂ (fun ep ea => ep.error = ea.error ∨
        (ep.error = "Download failed or image too small" ∧ ea.error = "Download failed"))
        su.errors sa.errors := by
  cases hpf : env.pageFetch with
  | none =>
    simp only [process_url, scrape_images, hpf] at hu
    cases hu
  | some p =>
    cases hextr : scrapeImagesFrom p.allImgs url with
    | error e =>
      simp only [process_url, scrape_images, hpf, scrapeImagesFrom] at hu
      simp only [scrapeImagesFrom] at hextr
      rw [hextr] at hu
      cases hu
    | ok pl =>
      have hfm : firstMatch p.selectOne defaultSelectors = none :=
        firstMatch_none p.selectOne defaultSelectors
          (fun sel _ => hsel p hpf sel)
      have hcore := articleAux_core_eq url p.allImgs 1
      simp only [scrapeImagesFrom] at hextr
      rw [hextr] at hcore
      cases hartr : articleImagesAux url p.allImgs 1 with
      | error e =>
        rw [hartr] at hcore
        simp only [Except.map] at hcore
        cases hcore
      | ok al =>
        rw [hartr] at hcore
        simp only [Except.map] at hcore
        injection hcore with hmap
        obtain ⟨ih1, ih2, ih3⟩ := loops_agree env prompt al pl 1 hmap
        simp only [process_url, scrape_images, hpf, scrapeImagesFrom, hextr] at hu
        simp only [process_article, scrape_article_images, hpf, hfm,
          Option.getD_none, articleImagesFrom, hartr] at ha
        injection hu with hu2
        injection ha with ha2
        subst hu2
        subst ha2
        refine ⟨rfl, rfl, ?_, ?_, ?_, ih1, ih2, ih3⟩
        · simpa using congrArg List.length hmap
        · simpa using congrArg List.length ih1
        · simpa using congrArg List.length ih2

/-- Page used by the runs for C5. -/
def pageC5 : Page :=
  { allImgs := [{ src := some "http://x/a.jpg" }],
    selectOne := fun _ => none, titleTag := some "T" }

/-- Environment of the runs for C5: the one image decodes to 30 by 30
pixels, area 900. -/
def envC5 : Env :=
  { titleFetch := some pageC5, pageFetch := some pageC5,
    imageFetch := fun _ => ImgFetch.response 200 (some ⟨30, 30, "RGB"⟩),
    oracle := fun _ _ => Except.ok "cap" }

/-- Summary of the whole-page run for C5 at pipeline minimum 2000. -/
def sC5u : Summary :=
  { url := "http://e.com/", title := "T", total_images_found := 1,
    images_processed := 0, images_failed := 1, results := [],
    errors := [{ index := 1, url := "http://x/a.jpg",
                 error := "Download failed or image too small" }] }

/-- Summary of the article run for C5. -/
def sC5a : ArticleSummary :=
  { url := "http://e.com/", title := "T", total_images_found := 1,
    images_processed := 1, images_failed := 0,
    results := [{ image_url := "http://x/a.jpg", caption := "cap",
                  original_caption := "", alt := "", width := 30,
                  height := 30, index := 1 }],
    errors := [] }

/-- C5 counterexample: on the same page and the same 30 by 30 image, a
pipeline constructed with minimum size 2000 rejects the image in
whole-page mode (the loop passes the pipeline minimum to the downloader)
while article mode captions it (its loop passes no minimum, so the
downloader default 200 applies) — the per-item mechanics of the two
modes differ beyond the extraction scope and the extra field. -/
theorem c5_counterexample :
    process_url envC5 "http://e.com/" none none 2000 = Except.ok sC5u
    ∧ process_article envC5 "http://e.com/" none = Except.ok sC5a
    ∧ sC5u.images_processed = 0 ∧ sC5a.images_processed = 1
    ∧ sC5u.images_failed = 1 ∧ sC5a.images_failed = 0 :=
  ⟨by rfl, by rfl, rfl, rfl, rfl, rfl⟩

/-- Summary of the whole-page run for C5 at pipeline minimum 200. -/
def suC5 : Summary :=
  { url := "http://e.com/", title := "T", total_images_found := 1,
    images_processed := 1, images_failed := 0,
    results := [{ image_url := "http://x/a.jpg", caption := "cap",
                  alt := "", title := "", width := 30, height := 30,
                  index := 1 }],
    errors := [] }

/-- Witness for the amended C5: with pipeline minimum 200 and no cap,
the concrete whole-page and article runs agree on counts and on every
shared record field. -/
theorem c5_amended_modes_agree_witness :
    sC5a.url = suC5.url ∧ sC5a.title = suC5.title
    ∧ sC5a.total_images_found = suC5.total_images_found
    ∧ sC5a.images_processed = suC5.images_processed
    ∧ sC5a.images_failed = suC5.images_failed
    ∧ sC5a.results.map (fun r => (r.image_url, r.caption, r.alt, r.width, r.height, r.index)) =
        suC5.results.map (fun r => (r.image_url, r.caption, r.alt, r.width, r.height, r.index))
    ∧ sC5a.errors.map (fun e => (e.index, e.url)) = suC5.errors.map (fun e => (e.index, e.url))
    ∧ List.Forall₂ (fun ep ea => ep.error = ea.error ∨
        (ep.error = "Download failed or image too small" ∧ ea.error = "Download failed"))
        suC5.errors sC5a.errors :=
  c5_amended_modes_agree envC5 "http://e.com/" none suC5 sC5a
    (by rfl) (by rfl)
    (by
      intro p hp sel
      simp only [envC5] at hp
      injection hp with hp2
      subst hp2
      rfl)
